import Mathlib

/-!
Verification of the public-ip-monitor repository (Go).

Shallow embedding of the address resolver (`internal/ip/monitor.go`,
`Fetcher.GetCurrentIP` / `Fetcher.fetchFromService`), the state store
(`internal/ip/storage.go`), the monitor (`Monitor.CheckOnce` /
`Monitor.handleIPChange`), the notification queue (`cmd/main.go`,
`changeHandler`), and the per-channel retry loop (`cmd/main.go`,
`sendEmailNotification` / `sendWhatsAppNotification`).

External effects (HTTP responses, file-system contents, write failures,
clock readings, channel-send outcomes) are passed in as explicit values,
so every Go function becomes a pure Lean function on those values.
Go `error` values become `Option String` / `Except String`, and wrapped
errors (`fmt.Errorf` with `%w`) become string concatenation of the
wrapping text with the inner message.
-/

namespace PublicIPMonitor

/-- Whitespace as defined by Go's `unicode.IsSpace` on the characters it
recognises in Latin-1: space, tab, newline, vertical tab, form feed,
carriage return, NEL and NBSP. -/
def isGoSpace (c : Char) : Bool :=
  c == ' ' || c == '\t' || c == '\n' || c == Char.ofNat 11 || c == Char.ofNat 12 ||
    c == '\r' || c == Char.ofNat 133 || c == Char.ofNat 160

/-- Embedding of Go's `strings.TrimSpace`: drop leading and trailing
whitespace characters. -/
def trimSpace (s : String) : String :=
  String.mk (((s.data.dropWhile isGoSpace).reverse.dropWhile isGoSpace).reverse)

/-- Observable outcome of contacting one address-echo endpoint, as seen by
`Fetcher.fetchFromService`: the request construction may fail, the HTTP
round trip may fail, or a response arrives with a status code and a body
whose read may itself fail. -/
inductive ServiceOutcome where
  | reqError (msg : String)
  | doError (msg : String)
  | response (status : Nat) (body : Except String String)
deriving Repr

/-- Embedding of `Fetcher.fetchFromService` (monitor.go 210-239): propagate
request/transport/read errors, reject a non-200 status, trim the body with
`strings.TrimSpace`, reject an empty trimmed body, and otherwise return the
trimmed body with no further validation. -/
def fetchFromService (serviceURL : String) (o : ServiceOutcome) : Except String String :=
  match o with
  | .reqError msg => .error ("failed to create request for " ++ serviceURL ++ ": " ++ msg)
  | .doError msg => .error ("failed to fetch from " ++ serviceURL ++ ": " ++ msg)
  | .response status body =>
    if status ≠ 200 then
      .error ("service " ++ serviceURL ++ " returned status " ++ toString status)
    else
      match body with
      | .error msg => .error ("failed to read response from " ++ serviceURL ++ ": " ++ msg)
      | .ok raw =>
        let ip := trimSpace raw
        if ip = "" then .error ("empty response from " ++ serviceURL)
        else .ok ip

/-- Errors of `Fetcher.GetCurrentIP`: either no services are configured, or
every service failed, wrapping the last underlying error (`nil` at the start
of the loop, hence `Option`). -/
inductive FetchError where
  | noServices
  | allServicesFailed (last : Option String)
deriving Repr, DecidableEq

/-- Rendering of `FetchError` to the Go error strings produced by
`fmt.Errorf` in `GetCurrentIP`. -/
def FetchError.message : FetchError → String
  | .noServices => "no IP services configured"
  | .allServicesFailed last =>
      "failed to get IP from all services, last error: " ++ last.getD ""

/-- The loop body of `Fetcher.GetCurrentIP` (monitor.go 196-206): try each
service in order, remembering the last error; return the first success; when
the list is exhausted, fail wrapping the last error. -/
def getCurrentIPLoop (lastError : Option String) :
    List (String × ServiceOutcome) → Except FetchError String
  | [] => .error (.allServicesFailed lastError)
  | (url, o) :: rest =>
    match fetchFromService url o with
    | .error e => getCurrentIPLoop (some e) rest
    | .ok ip => .ok ip

/-- Embedding of `Fetcher.GetCurrentIP` (monitor.go 190-207): an empty
configured service list is rejected up front, otherwise the services are
tried in order. Each list element pairs the service URL with the outcome the
network returns for it. -/
def GetCurrentIP (services : List (String × ServiceOutcome)) : Except FetchError String :=
  if services.length = 0 then .error .noServices
  else getCurrentIPLoop none services

/-- The error of `fetchFromService` at one endpoint, `none` when the fetch
succeeds. Used to phrase failure hypotheses about endpoint lists. -/
def serviceFetchError (p : String × ServiceOutcome) : Option String :=
  match fetchFromService p.1 p.2 with
  | .error e => some e
  | .ok _ => none

/-- One IP change record (`Record` in storage.go): the Go `time.Time` is
modelled as a `Nat` clock reading. -/
structure Record where
  ip : String
  timestamp : Nat
deriving Repr, DecidableEq

/-- Contents of the records file as `GetHistory` can observe them: absent,
a parseable JSON array of records, or present but unparseable. -/
inductive RecordsFile where
  | missing
  | parseable (records : List Record)
  | corrupt
deriving Repr, DecidableEq

/-- The two files owned by `Storage`: the last-IP file (absent or holding a
string) and the records file. -/
structure FS where
  lastIPFile : Option String
  recordsFile : RecordsFile
deriving Repr, DecidableEq

/-- Embedding of `Storage.ReadLastIP` (storage.go 47-56): a missing file
yields the empty string with no error; otherwise the file contents are
returned trimmed with `strings.TrimSpace`. -/
def ReadLastIP (fs : FS) : Except String String :=
  match fs.lastIPFile with
  | none => .ok ""
  | some data => .ok (trimSpace data)

/-- Embedding of `Storage.SaveLastIP` (storage.go 59-68) in the case where
the directory creation and file write succeed: the IP string is written
verbatim, replacing the file. Write failures are injected at the call site
in `handleIPChange`. -/
def SaveLastIP (ip : String) (fs : FS) : FS :=
  { fs with lastIPFile := some ip }

/-- Embedding of `Storage.GetHistory` (storage.go 104-120): a missing
records file is an empty history with no error; an unparseable file is an
unmarshal error; otherwise the parsed records are returned. -/
def GetHistory (fs : FS) : Except String (List Record) :=
  match fs.recordsFile with
  | .missing => .ok []
  | .parseable records => .ok records
  | .corrupt => .error "failed to unmarshal records"

/-- Embedding of `Storage.SaveRecord` (storage.go 71-101): read the whole
existing history through `GetHistory` (propagating its error), append a new
record stamped with the current clock, and rewrite the entire file. The
`writeFails` flag injects an `os.WriteFile` failure. -/
def SaveRecord (writeFails : Bool) (ip : String) (now : Nat) (fs : FS) : Except String FS :=
  match GetHistory fs with
  | .error e => .error ("failed to read existing records: " ++ e)
  | .ok records =>
    if writeFails then .error "failed to save IP record"
    else .ok { fs with recordsFile := .parseable (records ++ [⟨ip, now⟩]) }

/-- Fault injection for the file writes performed during one IP change:
`saveLastFails` makes `Storage.SaveLastIP` return an error (directory
creation or `os.WriteFile` failed), `saveRecordWriteFails` makes the final
`os.WriteFile` of `Storage.SaveRecord` fail. -/
structure Faults where
  saveLastFails : Bool
  saveRecordWriteFails : Bool
deriving Repr, DecidableEq

/-- Result of `Monitor.handleIPChange`: the file system afterwards, the
list of change-handler invocations made (each with its old and new IP
arguments), and the returned error if any. -/
structure HandleResult where
  fs : FS
  handlerCalls : List (String × String)
  error : Option String
deriving Repr, DecidableEq

/-- Embedding of `Monitor.handleIPChange` (monitor.go 106-125): save the new
IP (returning on failure), save the history record (returning on failure),
and only then call the change handler if one is configured, wrapping its
error. The handler is a function so its outcome can depend on its
arguments; its invocations are recorded in `handlerCalls`. -/
def handleIPChange (flt : Faults) (handler : Option (String → String → Except String Unit))
    (fs : FS) (oldIP newIP : String) (now : Nat) : HandleResult :=
  if flt.saveLastFails then
    { fs := fs, handlerCalls := [], error := some "failed to save new IP" }
  else
    let fs1 := SaveLastIP newIP fs
    match SaveRecord flt.saveRecordWriteFails newIP now fs1 with
    | .error e =>
      { fs := fs1, handlerCalls := [], error := some ("failed to save IP record: " ++ e) }
    | .ok fs2 =>
      match handler with
      | none => { fs := fs2, handlerCalls := [], error := none }
      | some h =>
        match h oldIP newIP with
        | .ok _ => { fs := fs2, handlerCalls := [(oldIP, newIP)], error := none }
        | .error e =>
          { fs := fs2, handlerCalls := [(oldIP, newIP)],
            error := some ("change handler failed: " ++ e) }

/-- The `CheckResult` struct of monitor.go (the `Error` field as
`Option String`). -/
structure CheckResult where
  currentIP : String
  lastIP : String
  changed : Bool
  error : Option String
deriving Repr, DecidableEq

/-- Result of one `Monitor.CheckOnce` call: the returned `CheckResult`
together with the file system afterwards and the handler invocations made. -/
structure CheckOutcome where
  result : CheckResult
  fs : FS
  handlerCalls : List (String × String)
deriving Repr, DecidableEq

/-- Embedding of `Monitor.CheckOnce` (monitor.go 37-68): fetch the current
IP (failure reported, state untouched), read the last IP, compare with
string inequality, and on a change run `handleIPChange`, wrapping its error
into the result while keeping the `CurrentIP`/`LastIP`/`Changed` fields. -/
def CheckOnce (flt : Faults) (handler : Option (String → String → Except String Unit))
    (services : List (String × ServiceOutcome)) (fs : FS) (now : Nat) : CheckOutcome :=
  match GetCurrentIP services with
  | .error e =>
    { result := { currentIP := "", lastIP := "", changed := false,
                  error := some ("failed to get current IP: " ++ e.message) },
      fs := fs, handlerCalls := [] }
  | .ok currentIP =>
    match ReadLastIP fs with
    | .error e =>
      { result := { currentIP := "", lastIP := "", changed := false,
                    error := some ("failed to read last IP: " ++ e) },
        fs := fs, handlerCalls := [] }
    | .ok lastIP =>
      let changed := currentIP != lastIP
      if changed then
        let h := handleIPChange flt handler fs lastIP currentIP now
        match h.error with
        | some e =>
          { result := { currentIP := currentIP, lastIP := lastIP, changed := changed,
                        error := some ("failed to handle IP change: " ++ e) },
            fs := h.fs, handlerCalls := h.handlerCalls }
        | none =>
          { result := { currentIP := currentIP, lastIP := lastIP, changed := changed,
                        error := none },
            fs := h.fs, handlerCalls := h.handlerCalls }
      else
        { result := { currentIP := currentIP, lastIP := lastIP, changed := changed,
                      error := none },
          fs := fs, handlerCalls := [] }

/-- The IP named by the most recent (last) record of a parseable records
file, `none` when there is no such record. -/
def newestRecordIP (fs : FS) : Option String :=
  match fs.recordsFile with
  | .parseable records => records.getLast?.map Record.ip
  | _ => none

/-- The spec invariant, as a Boolean on the two files: whenever the records
file parses and is non-empty, the last-IP file holds exactly the IP of its
most recent record. -/
def lastMatchesNewest (fs : FS) : Bool :=
  match newestRecordIP fs with
  | some ip => fs.lastIPFile == some ip
  | none => true

/-- The `notificationRequest` struct of cmd/main.go, with `time.Time` as a
`Nat` clock reading. -/
structure NotificationRequest where
  oldIP : String
  newIP : String
  timestamp : Nat
deriving Repr, DecidableEq

/-- Capacity of the buffered notification channel created in cmd/main.go
line 111. -/
def notificationChanCapacity : Nat := 10

/-- Outcome of the `select`/`default` enqueue in `changeHandler`: the event
was queued, or the channel was full and the event was dropped with a logged
warning. -/
inductive EnqueueOutcome where
  | queued
  | droppedWithWarning
deriving Repr, DecidableEq

/-- Embedding of the non-blocking send on the buffered notification channel
in `changeHandler` (cmd/main.go 125-135): the channel is the list of queued
requests; a send succeeds exactly when the buffer is below capacity, and
otherwise the `default` branch drops the request, leaving the queue
unchanged. -/
def enqueueNotification (queue : List NotificationRequest) (req : NotificationRequest) :
    List NotificationRequest × EnqueueOutcome :=
  if queue.length < notificationChanCapacity then (queue ++ [req], .queued)
  else (queue, .droppedWithWarning)

/-- Embedding of the `changeHandler` closure (cmd/main.go 117-138): an empty
old IP is replaced by "Unknown", the notification request is enqueued
non-blockingly, and the handler always returns `nil`. -/
def changeHandler (queue : List NotificationRequest) (oldIP newIP : String) (now : Nat) :
    (List NotificationRequest × EnqueueOutcome) × Except String Unit :=
  let oldIP2 := if oldIP = "" then "Unknown" else oldIP
  (enqueueNotification queue { oldIP := oldIP2, newIP := newIP, timestamp := now }, .ok ())

/-- The `maxRetries` constant of `sendEmailNotification` and
`sendWhatsAppNotification` (cmd/main.go 292 and 332). -/
def maxRetries : Nat := 3

/-- Report of one per-channel send with retries: how many attempts were
made and the backoff sleeps (in seconds) performed between them, ending in
success or in giving up. -/
inductive SendReport where
  | success (attemptsUsed : Nat) (sleepsSeconds : List Nat)
  | failure (attemptsUsed : Nat) (sleepsSeconds : List Nat)
deriving Repr, DecidableEq

/-- The retry loop shared by `sendEmailNotification` (cmd/main.go 293-319)
and `sendWhatsAppNotification` (cmd/main.go 333-358): `sendOK k` is whether
the channel send succeeds on attempt `k`; `remaining` counts the attempts
still allowed (so `remaining = 1` means `attempt = maxRetries`); `sleeps`
accumulates in reverse the backoff sleeps `2^(attempt-1)` seconds taken
after each failed non-final attempt. -/
def retryLoop (sendOK : Nat → Bool) (attempt : Nat) (remaining : Nat)
    (sleeps : List Nat) : SendReport :=
  match remaining with
  | 0 => .failure (attempt - 1) sleeps.reverse
  | r + 1 =>
    if sendOK attempt then .success attempt sleeps.reverse
    else if r = 0 then .failure attempt sleeps.reverse
    else retryLoop sendOK (attempt + 1) r (2 ^ (attempt - 1) :: sleeps)

/-- A per-channel notification send as performed by `sendEmailNotification`
and `sendWhatsAppNotification`: start at attempt 1 with `maxRetries`
attempts allowed and no sleeps taken. -/
def sendNotificationWithRetry (sendOK : Nat → Bool) : SendReport :=
  retryLoop sendOK 1 maxRetries []

lemma fetchFromService_response_ok (url body : String) (h : trimSpace body ≠ "") :
    fetchFromService url (.response 200 (.ok body)) = .ok (trimSpace body) := by
  simp [fetchFromService, h]

lemma getCurrentIPLoop_append_failing (pre tail : List (String × ServiceOutcome)) :
    ∀ lastError : Option String,
      (∀ p ∈ pre, ∃ e, fetchFromService p.1 p.2 = .error e) →
      ∃ le2, getCurrentIPLoop lastError (pre ++ tail) = getCurrentIPLoop le2 tail := by
  induction pre with
  | nil => exact fun le _ => ⟨le, rfl⟩
  | cons p ps ih =>
    intro le h
    obtain ⟨e, he⟩ := h p (List.mem_cons_self _ _)
    obtain ⟨le2, hrec⟩ := ih (some e) (fun q hq => h q (List.mem_cons_of_mem _ hq))
    refine ⟨le2, ?_⟩
    cases p with
    | mk url o =>
      simp only [List.cons_append, getCurrentIPLoop]
      rw [he]
      exact hrec

lemma getCurrentIPLoop_all_fail :
    ∀ (services : List (String × ServiceOutcome)) (hne : services ≠ [])
      (lastError : Option String),
      (∀ p ∈ services, ∃ e, fetchFromService p.1 p.2 = .error e) →
      ∃ e, fetchFromService (services.getLast hne).1 (services.getLast hne).2 = .error e ∧
        getCurrentIPLoop lastError services = .error (.allServicesFailed (some e))
  | [], hne, _, _ => absurd rfl hne
  | (url, o) :: rest, hne, lastError, hfail => by
    obtain ⟨e, he⟩ := hfail (url, o) (List.mem_cons_self _ _)
    cases rest with
    | nil =>
      refine ⟨e, by simpa using he, ?_⟩
      simp only [getCurrentIPLoop]
      rw [he]
    | cons q qs =>
      have hfail2 : ∀ p ∈ q :: qs, ∃ e2, fetchFromService p.1 p.2 = .error e2 :=
        fun p hp => hfail p (List.mem_cons_of_mem _ hp)
      obtain ⟨e2, he2, hloop⟩ :=
        getCurrentIPLoop_all_fail (q :: qs) (List.cons_ne_nil q qs) (some e) hfail2
      refine ⟨e2, ?_, ?_⟩
      · rw [List.getLast_cons (List.cons_ne_nil q qs)]
        exact he2
      · simp only [getCurrentIPLoop]
        rw [he]
        exact hloop

/-- Claim C2: for every endpoint list whose first N endpoints all fail and whose
endpoint N+1 answers status 200 with a body whose trim is non-empty,
`GetCurrentIP` returns that body trimmed — independent of whatever the
endpoints after N+1 would have answered (they are never contacted), and with
no validation beyond the non-empty-trim check. -/
theorem getCurrentIP_first_success (pre rest : List (String × ServiceOutcome))
    (url body : String)
    (hpre : ∀ p ∈ pre, ∃ e, fetchFromService p.1 p.2 = .error e)
    (hbody : trimSpace body ≠ "") :
    GetCurrentIP (pre ++ (url, .response 200 (.ok body)) :: rest) = .ok (trimSpace body) := by
  obtain ⟨le2, hskip⟩ :=
    getCurrentIPLoop_append_failing pre ((url, .response 200 (.ok body)) :: rest) none hpre
  unfold GetCurrentIP
  rw [if_neg (by simp)]
  rw [hskip]
  simp only [getCurrentIPLoop]
  rw [fetchFromService_response_ok url body hbody]

/-- Witness for C2 at a concrete list: one failing endpoint, then a
successful endpoint answering a whitespace-padded body, then one more
endpoint that is never contacted. -/
theorem getCurrentIP_first_success_witness :
    GetCurrentIP [("https://a.example", .doError "connection refused"),
        ("https://b.example", .response 200 (.ok " 1.2.3.4\n")),
        ("https://c.example", .response 200 (.ok "9.9.9.9"))] = .ok "1.2.3.4" := by
  have h := getCurrentIP_first_success
    [("https://a.example", .doError "connection refused")]
    [("https://c.example", .response 200 (.ok "9.9.9.9"))]
    "https://b.example" " 1.2.3.4\n"
    (by
      intro p hp
      rw [List.mem_singleton] at hp
      subst hp
      exact ⟨_, rfl⟩)
    (by decide)
  rw [show (trimSpace " 1.2.3.4\n") = "1.2.3.4" from by decide] at h
  exact h

/-- Claim C7: for every non-empty endpoint list on which every endpoint fails,
`GetCurrentIP` returns no address but an all-services-failed error wrapping
the underlying error of the last endpoint. -/
theorem getCurrentIP_all_fail (services : List (String × ServiceOutcome))
    (hne : services ≠ [])
    (hfail : ∀ p ∈ services, ∃ e, fetchFromService p.1 p.2 = .error e) :
    ∃ e, fetchFromService (services.getLast hne).1 (services.getLast hne).2 = .error e ∧
      GetCurrentIP services = .error (.allServicesFailed (some e)) := by
  obtain ⟨e, he, hloop⟩ := getCurrentIPLoop_all_fail services hne none hfail
  refine ⟨e, he, ?_⟩
  unfold GetCurrentIP
  rw [if_neg (fun h => hne (List.length_eq_zero.mp h))]
  exact hloop

/-- Witness for C7 at a concrete two-endpoint list where the first fails on
the network and the second returns a 500 status. -/
theorem getCurrentIP_all_fail_witness :
    ∃ e, fetchFromService
        (([("https://a.example", ServiceOutcome.doError "connection refused"),
           ("https://b.example", ServiceOutcome.response 500 (.ok "oops"))].getLast
          (List.cons_ne_nil _ _)).1)
        (([("https://a.example", ServiceOutcome.doError "connection refused"),
           ("https://b.example", ServiceOutcome.response 500 (.ok "oops"))].getLast
          (List.cons_ne_nil _ _)).2) = .error e ∧
      GetCurrentIP [("https://a.example", ServiceOutcome.doError "connection refused"),
          ("https://b.example", ServiceOutcome.response 500 (.ok "oops"))] =
        .error (.allServicesFailed (some e)) := by
  apply getCurrentIP_all_fail
  intro p hp
  rw [List.mem_cons] at hp
  rcases hp with rfl | hp
  · exact ⟨_, rfl⟩
  · rw [List.mem_singleton] at hp
    subst hp
    exact ⟨_, rfl⟩

/-- Claim C10: calling the resolver with an empty configured endpoint list fails
immediately with the dedicated error, whose rendered message is the Go
string "no IP services configured"; no endpoint is consulted. -/
theorem getCurrentIP_no_services :
    GetCurrentIP [] = .error .noServices ∧
    FetchError.message .noServices = "no IP services configured" :=
  ⟨rfl, rfl⟩

/-- Claim C8: reading the last IP from a store whose last-address file does not
exist yields the empty string and no error. -/
theorem readLastIP_missing_file (fs : FS) (h : fs.lastIPFile = none) :
    ReadLastIP fs = .ok "" := by
  unfold ReadLastIP
  rw [h]

/-- Witness for C8 on the fresh store with neither file present. -/
theorem readLastIP_missing_file_witness :
    ReadLastIP ⟨none, .missing⟩ = .ok "" :=
  readLastIP_missing_file ⟨none, .missing⟩ rfl

/-- Claim C9: the last-address round trip. Saving writes the string verbatim and
reading trims it, so the round trip always returns the trimmed form, and
returns the string itself exactly when it carries no surrounding
whitespace. -/
theorem saveLastIP_readLastIP_roundtrip (ip : String) (fs : FS) :
    ReadLastIP (SaveLastIP ip fs) = .ok (trimSpace ip) ∧
    (trimSpace ip = ip → ReadLastIP (SaveLastIP ip fs) = .ok ip) := by
  refine ⟨rfl, fun h => ?_⟩
  rw [show ReadLastIP (SaveLastIP ip fs) = .ok (trimSpace ip) from rfl, h]

/-- Witness for C9: a whitespace-free address round-trips exactly, and a
padded one comes back trimmed. -/
theorem saveLastIP_readLastIP_roundtrip_witness :
    ReadLastIP (SaveLastIP "1.2.3.4" ⟨none, .missing⟩) = .ok "1.2.3.4" ∧
    ReadLastIP (SaveLastIP " 1.2.3.4\n" ⟨none, .missing⟩) = .ok "1.2.3.4" := by
  constructor
  · exact (saveLastIP_readLastIP_roundtrip "1.2.3.4" ⟨none, .missing⟩).2 (by decide)
  · have h := (saveLastIP_readLastIP_roundtrip " 1.2.3.4\n" ⟨none, .missing⟩).1
    rw [show trimSpace " 1.2.3.4\n" = "1.2.3.4" from by decide] at h
    exact h

/-- Claim C3: `SaveRecord` semantics. On any store with a parseable records file
it appends the new record at the end and rewrites the whole file; a
present-but-unparseable records file makes it fail with the propagated
parse error; on a fresh store two successive saves leave exactly the two
records in order, and the last-IP file written alongside reads back as the
second address. -/
theorem saveRecord_appends_and_propagates (ip : String) (now t1 t2 : Nat) :
    (∀ (fs : FS) (rs : List Record), fs.recordsFile = .parseable rs →
      SaveRecord false ip now fs =
        .ok { fs with recordsFile := .parseable (rs ++ [⟨ip, now⟩]) }) ∧
    (∀ fs : FS, fs.recordsFile = .corrupt →
      SaveRecord false ip now fs =
        .error "failed to read existing records: failed to unmarshal records") ∧
    SaveRecord false "1.2.3.4" t1 ⟨none, .missing⟩ =
      .ok ⟨none, .parseable [⟨"1.2.3.4", t1⟩]⟩ ∧
    SaveRecord false "5.6.7.8" t2 ⟨none, .parseable [⟨"1.2.3.4", t1⟩]⟩ =
      .ok ⟨none, .parseable [⟨"1.2.3.4", t1⟩, ⟨"5.6.7.8", t2⟩]⟩ ∧
    GetHistory ⟨none, .parseable [⟨"1.2.3.4", t1⟩, ⟨"5.6.7.8", t2⟩]⟩ =
      .ok [⟨"1.2.3.4", t1⟩, ⟨"5.6.7.8", t2⟩] ∧
    ReadLastIP (SaveLastIP "5.6.7.8" (SaveLastIP "1.2.3.4" ⟨none, .missing⟩)) =
      .ok "5.6.7.8" := by
  refine ⟨fun fs rs h => ?_, fun fs h => ?_, rfl, rfl, rfl, rfl⟩
  · unfold SaveRecord GetHistory
    rw [h]
    rfl
  · unfold SaveRecord GetHistory
    rw [h]
    rfl

/-- Witness for C3: the general append clause applied to a store already
holding one parsed record, and the parse-error clause applied to a corrupt
store. -/
theorem saveRecord_appends_and_propagates_witness :
    SaveRecord false "9.9.9.9" 5 ⟨some "old", .parseable [⟨"1.1.1.1", 0⟩]⟩ =
      .ok ⟨some "old", .parseable [⟨"1.1.1.1", 0⟩, ⟨"9.9.9.9", 5⟩]⟩ ∧
    SaveRecord false "9.9.9.9" 5 ⟨none, .corrupt⟩ =
      .error "failed to read existing records: failed to unmarshal records" := by
  constructor
  · exact (saveRecord_appends_and_propagates "9.9.9.9" 5 0 0).1
      ⟨some "old", .parseable [⟨"1.1.1.1", 0⟩]⟩ [⟨"1.1.1.1", 0⟩] rfl
  · exact (saveRecord_appends_and_propagates "9.9.9.9" 5 0 0).2.1 ⟨none, .corrupt⟩ rfl

/-- Claim C4: the notification enqueue is non-blocking with fixed capacity 10:
below capacity the event is appended to the queue; at or above capacity the
newly enqueued event is the one dropped, with a warning, the queue left
unchanged; and the producing change handler always returns without an
error, never blocking. -/
theorem enqueueNotification_bounded (queue : List NotificationRequest)
    (req : NotificationRequest) (oldIP newIP : String) (now : Nat) :
    (queue.length < notificationChanCapacity →
      enqueueNotification queue req = (queue ++ [req], .queued)) ∧
    (notificationChanCapacity ≤ queue.length →
      enqueueNotification queue req = (queue, .droppedWithWarning)) ∧
    notificationChanCapacity = 10 ∧
    (changeHandler queue oldIP newIP now).2 = Except.ok () := by
  refine ⟨fun h => ?_, fun h => ?_, rfl, rfl⟩
  · unfold enqueueNotification
    rw [if_pos h]
  · unfold enqueueNotification
    rw [if_neg (Nat.not_lt.mpr h)]

/-- Witness for C4: a queue of ten pending requests drops the eleventh
event unchanged, and the empty queue accepts an event. -/
theorem enqueueNotification_bounded_witness :
    enqueueNotification (List.replicate 10 ⟨"a", "b", 0⟩) ⟨"x", "y", 1⟩ =
      (List.replicate 10 ⟨"a", "b", 0⟩, .droppedWithWarning) ∧
    enqueueNotification [] ⟨"x", "y", 1⟩ = ([⟨"x", "y", 1⟩], .queued) := by
  constructor
  · exact (enqueueNotification_bounded (List.replicate 10 ⟨"a", "b", 0⟩)
      ⟨"x", "y", 1⟩ "a" "b" 0).2.1 (by decide)
  · exact (enqueueNotification_bounded [] ⟨"x", "y", 1⟩ "a" "b" 0).1 (by decide)

/-- Claim C5: the per-channel retry loop makes at most `maxRetries = 3` attempts
with sleeps doubling from a 1-second base after each failed non-final
attempt: success on attempt 1 requires no sleep, success on attempt 2 comes
after a 1-second sleep, success on attempt 3 after sleeps of 1 and 2
seconds with no fourth attempt, and failure of all three attempts gives up
after exactly 3 attempts and the same two sleeps. -/
theorem sendNotificationWithRetry_backoff (sendOK : Nat → Bool) :
    maxRetries = 3 ∧
    (sendOK 1 = true → sendNotificationWithRetry sendOK = .success 1 []) ∧
    (sendOK 1 = false → sendOK 2 = true →
      sendNotificationWithRetry sendOK = .success 2 [1]) ∧
    (sendOK 1 = false → sendOK 2 = false → sendOK 3 = true →
      sendNotificationWithRetry sendOK = .success 3 [1, 2]) ∧
    (sendOK 1 = false → sendOK 2 = false → sendOK 3 = false →
      sendNotificationWithRetry sendOK = .failure 3 [1, 2]) := by
  refine ⟨rfl, fun h1 => ?_, fun h1 h2 => ?_, fun h1 h2 h3 => ?_, fun h1 h2 h3 => ?_⟩
  all_goals simp [sendNotificationWithRetry, maxRetries, retryLoop, h1]
  all_goals simp [h2]
  all_goals simp [h3]

/-- Witness for C5: with sends succeeding from attempt 3 on, the report is
success on attempt 3 after sleeps of 1 and 2 seconds; with sends always
failing, the report is failure after 3 attempts. -/
theorem sendNotificationWithRetry_backoff_witness :
    sendNotificationWithRetry (fun k => decide (3 ≤ k)) = .success 3 [1, 2] ∧
    sendNotificationWithRetry (fun _ => false) = .failure 3 [1, 2] :=
  ⟨(sendNotificationWithRetry_backoff (fun k => decide (3 ≤ k))).2.2.2.1 rfl rfl rfl,
   (sendNotificationWithRetry_backoff (fun _ => false)).2.2.2.2 rfl rfl rfl⟩

/-- Claim C1 counterexample: with a configured handler and a change from
1.1.1.1 to 2.2.2.2, a failing last-address save makes `handleIPChange`
return its error without invoking the handler, and likewise a failing
history write: notification is blocked by either save failure, contrary to
the claim that the handler is still invoked. -/
theorem handleIPChange_save_failure_blocks_handler :
    (handleIPChange ⟨true, false⟩ (some fun _ _ => .ok ())
        ⟨some "1.1.1.1", .parseable [⟨"1.1.1.1", 0⟩]⟩ "1.1.1.1" "2.2.2.2" 1).handlerCalls
      = [] ∧
    (handleIPChange ⟨true, false⟩ (some fun _ _ => .ok ())
        ⟨some "1.1.1.1", .parseable [⟨"1.1.1.1", 0⟩]⟩ "1.1.1.1" "2.2.2.2" 1).error
      = some "failed to save new IP" ∧
    (handleIPChange ⟨false, true⟩ (some fun _ _ => .ok ())
        ⟨some "1.1.1.1", .parseable [⟨"1.1.1.1", 0⟩]⟩ "1.1.1.1" "2.2.2.2" 1).handlerCalls
      = [] ∧
    (handleIPChange ⟨false, true⟩ (some fun _ _ => .ok ())
        ⟨some "1.1.1.1", .parseable [⟨"1.1.1.1", 0⟩]⟩ "1.1.1.1" "2.2.2.2" 1).error
      = some "failed to save IP record: failed to save IP record" :=
  ⟨rfl, rfl, rfl, rfl⟩

/-- Claim C1 amended: change handling is sequential, not independent best-effort.
The configured handler is invoked (with the old and new address) exactly
when both the last-address save and the history append succeed; whenever it
is not invoked, the save error is reported to the caller. -/
theorem handleIPChange_handler_iff_saves_ok (flt : Faults)
    (handler : String → String → Except String Unit) (fs : FS)
    (oldIP newIP : String) (now : Nat) :
    ((handleIPChange flt (some handler) fs oldIP newIP now).handlerCalls = [(oldIP, newIP)] ↔
      flt.saveLastFails = false ∧
        ∃ fs2, SaveRecord flt.saveRecordWriteFails newIP now (SaveLastIP newIP fs) = .ok fs2) ∧
    ((handleIPChange flt (some handler) fs oldIP newIP now).handlerCalls = [] →
      (handleIPChange flt (some handler) fs oldIP newIP now).error.isSome = true) := by
  unfold handleIPChange
  cases hfl : flt.saveLastFails with
  | true =>
    simp only [if_pos rfl]
    refine ⟨?_, fun _ => rfl⟩
    simp
  | false =>
    simp only [Bool.false_eq_true, if_neg (Bool.false_ne_true)]
    cases hsr : SaveRecord flt.saveRecordWriteFails newIP now (SaveLastIP newIP fs) with
    | error e =>
      refine ⟨?_, fun _ => rfl⟩
      simp
    | ok fs2 =>
      cases hh : handler oldIP newIP with
      | ok u =>
        refine ⟨?_, by simp⟩
        simp
      | error e =>
        refine ⟨?_, by simp⟩
        simp

/-- Witness for C1 amended: with both saves succeeding the handler is
invoked with the old and new address, and with a failing history write it
is not and an error is reported. -/
theorem handleIPChange_handler_iff_saves_ok_witness :
    (handleIPChange ⟨false, false⟩ (some fun _ _ => .ok ())
        ⟨some "1.1.1.1", .parseable [⟨"1.1.1.1", 0⟩]⟩ "1.1.1.1" "2.2.2.2" 1).handlerCalls
      = [("1.1.1.1", "2.2.2.2")] ∧
    (handleIPChange ⟨false, true⟩ (some fun _ _ => .ok ())
        ⟨some "1.1.1.1", .parseable [⟨"1.1.1.1", 0⟩]⟩ "1.1.1.1" "2.2.2.2" 1).error.isSome
      = true := by
  constructor
  · exact (handleIPChange_handler_iff_saves_ok ⟨false, false⟩ (fun _ _ => .ok ())
      ⟨some "1.1.1.1", .parseable [⟨"1.1.1.1", 0⟩]⟩ "1.1.1.1" "2.2.2.2" 1).1.mpr
      ⟨rfl, ⟨some "2.2.2.2", .parseable [⟨"1.1.1.1", 0⟩, ⟨"2.2.2.2", 1⟩]⟩, rfl⟩
  · exact (handleIPChange_handler_iff_saves_ok ⟨false, true⟩ (fun _ _ => .ok ())
      ⟨some "1.1.1.1", .parseable [⟨"1.1.1.1", 0⟩]⟩ "1.1.1.1" "2.2.2.2" 1).2 rfl

lemma getLastOfConcat {α : Type} (l : List α) (a : α) : (l ++ [a]).getLast? = some a := by
  induction l with
  | nil => rfl
  | cons x xs ih =>
    cases xs with
    | nil => rfl
    | cons y ys => simpa using ih

lemma handleIPChange_preserves_inv (flt : Faults)
    (handler : Option (String → String → Except String Unit)) (fs : FS)
    (oldIP newIP : String) (now : Nat)
    (hflt : flt.saveRecordWriteFails = false)
    (hinv : lastMatchesNewest fs = true) :
    lastMatchesNewest (handleIPChange flt handler fs oldIP newIP now).fs = true := by
  unfold handleIPChange
  rw [hflt]
  cases hfl : flt.saveLastFails with
  | true => simpa using hinv
  | false =>
    rw [if_neg Bool.false_ne_true]
    have hlast : ∀ rf, lastMatchesNewest ⟨some newIP, .parseable (rf ++ [⟨newIP, now⟩])⟩ = true := by
      intro rf
      simp [lastMatchesNewest, newestRecordIP, getLastOfConcat]
    cases hrf : fs.recordsFile with
    | missing =>
      have hsr : SaveRecord false newIP now (SaveLastIP newIP fs) =
          .ok ⟨some newIP, .parseable ([] ++ [⟨newIP, now⟩])⟩ := by
        unfold SaveRecord GetHistory SaveLastIP
        rw [hrf]
        rfl
      simp only [hsr]
      cases handler with
      | none => simpa using hlast []
      | some h =>
        dsimp only
        cases h oldIP newIP with
        | ok u => simpa using hlast []
        | error e => simpa using hlast []
    | parseable rs =>
      have hsr : SaveRecord false newIP now (SaveLastIP newIP fs) =
          .ok ⟨some newIP, .parseable (rs ++ [⟨newIP, now⟩])⟩ := by
        unfold SaveRecord GetHistory SaveLastIP
        rw [hrf]
        rfl
      simp only [hsr]
      cases handler with
      | none => simpa using hlast rs
      | some h =>
        dsimp only
        cases h oldIP newIP with
        | ok u => simpa using hlast rs
        | error e => simpa using hlast rs
    | corrupt =>
      have hsr : SaveRecord false newIP now (SaveLastIP newIP fs) =
          .error "failed to read existing records: failed to unmarshal records" := by
        unfold SaveRecord GetHistory SaveLastIP
        rw [hrf]
        rfl
      simp only [hsr]
      simp [lastMatchesNewest, newestRecordIP, SaveLastIP, hrf]

/-- Claim C6 counterexample: the equality between the last-address file and the
newest history record is not re-established by every monitor operation.
Starting from a consistent store holding 1.1.1.1, a check that resolves
2.2.2.2 but whose history write fails leaves the last-address file holding
2.2.2.2 while the newest record still names 1.1.1.1 — an inconsistency that
persists after the change handling has completed. -/
theorem checkOnce_can_break_lastMatchesNewest :
    lastMatchesNewest ⟨some "1.1.1.1", .parseable [⟨"1.1.1.1", 0⟩]⟩ = true ∧
    (CheckOnce ⟨false, true⟩ none [("https://a.example", .response 200 (.ok "2.2.2.2"))]
        ⟨some "1.1.1.1", .parseable [⟨"1.1.1.1", 0⟩]⟩ 1).result.changed = true ∧
    (CheckOnce ⟨false, true⟩ none [("https://a.example", .response 200 (.ok "2.2.2.2"))]
        ⟨some "1.1.1.1", .parseable [⟨"1.1.1.1", 0⟩]⟩ 1).fs =
      ⟨some "2.2.2.2", .parseable [⟨"1.1.1.1", 0⟩]⟩ ∧
    lastMatchesNewest ⟨some "2.2.2.2", .parseable [⟨"1.1.1.1", 0⟩]⟩ = false :=
  ⟨rfl, rfl, rfl, rfl⟩

/-- Claim C6 amended: in every monitor operation in which the history append does
not fail on its file write, the invariant is preserved: a failed resolution
or an unchanged address leaves both files untouched, and a detected change
(even one whose last-address save fails, whose history file is corrupt, or
whose handler errors) leaves the last-address file equal to the IP of the
newest parsed history record. Only a history write failure after the
last-address write can leave the two files inconsistent. -/
theorem checkOnce_preserves_lastMatchesNewest (flt : Faults)
    (handler : Option (String → String → Except String Unit))
    (services : List (String × ServiceOutcome)) (fs : FS) (now : Nat)
    (hflt : flt.saveRecordWriteFails = false)
    (hinv : lastMatchesNewest fs = true) :
    lastMatchesNewest (CheckOnce flt handler services fs now).fs = true := by
  unfold CheckOnce
  cases hgc : GetCurrentIP services with
  | error e => simpa using hinv
  | ok currentIP =>
    obtain ⟨s, hrl⟩ : ∃ s, ReadLastIP fs = .ok s := by
      unfold ReadLastIP
      cases fs.lastIPFile with
      | none => exact ⟨"", rfl⟩
      | some data => exact ⟨trimSpace data, rfl⟩
    rw [hrl]
    simp only
    cases hch : (currentIP != s) with
    | false => simpa using hinv
    | true =>
      have hpres := handleIPChange_preserves_inv flt handler fs s currentIP now hflt hinv
      cases herr : (handleIPChange flt handler fs s currentIP now).error with
      | none => simpa using hpres
      | some e => simpa using hpres

/-- Witness for C6 amended: a change from 1.1.1.1 to 2.2.2.2 whose saves
succeed re-establishes the equality on the updated store. -/
theorem checkOnce_preserves_lastMatchesNewest_witness :
    lastMatchesNewest (CheckOnce ⟨false, false⟩ none
        [("https://a.example", .response 200 (.ok "2.2.2.2"))]
        ⟨some "1.1.1.1", .parseable [⟨"1.1.1.1", 0⟩]⟩ 1).fs = true :=
  checkOnce_preserves_lastMatchesNewest ⟨false, false⟩ none
    [("https://a.example", .response 200 (.ok "2.2.2.2"))]
    ⟨some "1.1.1.1", .parseable [⟨"1.1.1.1", 0⟩]⟩ 1 rfl rfl

end PublicIPMonitor
